import Mathlib

/-!
Verification development for the Lumora daily-challenge application core.

The JavaScript core consists of two modules:
  - storageService.js: profile persistence, streak computation, history capping,
    preference persistence, bulk clear and export;
  - aiService.js (AIChallengeGenerator): template-based challenge generation,
    per-day caching, history append.

Modelling conventions:
  - Timestamps are integers counting hours since an arbitrary epoch.
    JavaScript Date.toDateString yields one distinct string per calendar day;
    we model it as the day number Int.ediv t 24, and getHours as Int.emod t 24.
    The JS expression new Date(Date.now() - 24*60*60*1000).toDateString()
    becomes toDateString (now - 24).
  - AsyncStorage is a map from string keys to parsed JSON values (Val below);
    JSON.stringify and JSON.parse round-trip, so values are stored directly.
    A read or write that may fail is given its outcome as an Except Unit
    parameter: Except.error models a thrown storage or serialization error.
  - Math.floor(Math.random() * n) draws an arbitrary index below n; we model
    the random source as a stream rand of naturals consumed at increasing
    positions, each draw taking rand pos % n. When a list is indexed the JS
    out-of-range access (which only happens for an empty category list and
    makes the JS throw later) is modelled with List.getD and a default.
  - A JS function that can throw to its caller returns an Option, with none
    modelling the uncaught exception.
-/

/-- Calendar-day identifier of a timestamp: models Date.toDateString, which
yields one distinct string per calendar day. -/
def toDateString (t : Int) : Int := t.ediv 24

/-- Hour of day of a timestamp: models Date.getHours. -/
def getHours (t : Int) : Int := t.emod 24

/-- Replace the first occurrence of pat in a character list: models the
single-replacement semantics of JavaScript String.prototype.replace with a
string pattern. -/
def replaceFirstAux (pat rep : List Char) : List Char → List Char
  | [] => []
  | c :: rest =>
    if pat.isPrefixOf (c :: rest) then rep ++ (c :: rest).drop pat.length
    else c :: replaceFirstAux pat rep rest

/-- First-occurrence string replacement, as JavaScript replace does. -/
def String.replaceFirst (s pat rep : String) : String :=
  String.mk (replaceFirstAux pat.data rep.data s.data)

/-- Challenge category tags appearing in the template corpus. -/
inductive Category where
  | personal
  | health
  | learning
  deriving DecidableEq, Repr

/-- Difficulty levels of the preference model. -/
inductive Difficulty where
  | easy
  | medium
  | hard
  deriving DecidableEq, Repr

/-- User preferences; the aiService default object omits the notifications and
reminderTime fields, hence the Option types. -/
structure Preferences where
  difficulty : Difficulty
  categories : List Category
  notifications : Option Bool
  reminderTime : Option String
  deriving DecidableEq, Repr

/-- Entry of DIFFICULTY_MODIFIERS. -/
structure Modifiers where
  time : Nat
  effort : Nat
  complexity : Nat
  deriving DecidableEq, Repr

/-- A template group of CHALLENGE_TEMPLATES: a type tag plus template texts. -/
structure TemplateGroup where
  type : String
  templates : List String
  deriving DecidableEq, Repr

/-- Result of getPersonalizationFactors. The recentCategories object literal is
modelled as an association list built in JS reduce order; successRate is the
exact rational completed / total (JS computes it in floating point, but no
claim depends on rounding). -/
structure PersonalizationFactors where
  timeOfDay : Int
  dayOfWeek : Int
  userDifficulty : Difficulty
  recentCategories : List (Category × Nat)
  successRate : Rat
  deriving DecidableEq, Repr

/-- A generated challenge instance, with the fields built by
generateChallengeForCategory. createdAt is the generation timestamp. -/
structure Challenge where
  id : String
  title : String
  description : String
  category : Category
  type : String
  difficulty : Difficulty
  estimatedTime : Nat
  effortLevel : Nat
  complexity : Nat
  createdAt : Int
  completed : Bool
  completedAt : Option Int
  userNotes : String
  aiGenerated : Bool
  personalizationFactors : PersonalizationFactors
  deriving DecidableEq, Repr

/-- One completion record pushed by updateUserProgress. -/
structure CompletionRecord where
  id : String
  completedAt : Int
  deriving DecidableEq, Repr

/-- The persisted user profile. -/
structure UserData where
  id : String
  name : String
  joinDate : Int
  completedChallenges : List CompletionRecord
  currentStreak : Int
  totalChallenges : Int
  preferences : Preferences
  deriving DecidableEq, Repr

/-- Parsed JSON values stored under the AsyncStorage keys this program uses. -/
inductive Val where
  | challenges : List Challenge → Val
  | user : UserData → Val
  | prefs : Preferences → Val
  deriving DecidableEq

/-- The persistent key-value store. -/
abbrev Store := String → Option Val

/-- Models AsyncStorage.setItem on a successful write. -/
def Store.set (s : Store) (k : String) (v : Val) : Store :=
  fun q => if q = k then some v else s q

/-- Models AsyncStorage.multiRemove. -/
def Store.multiRemove (s : Store) (ks : List String) : Store :=
  fun q => if q ∈ ks then none else s q

/-- A store with no keys populated. -/
def emptyStore : Store := fun _ => none

/-- The template corpus CHALLENGE_TEMPLATES, transcribed from aiService. -/
def CHALLENGE_TEMPLATES : Category → List TemplateGroup
  | .personal =>
    [{ type := "reflection",
       templates :=
        ["Take 10 minutes to write about something you\x27re grateful for today",
         "Reflect on a recent challenge and what you learned from it",
         "Write down three things you want to improve about yourself"] },
     { type := "connection",
       templates :=
        ["Reach out to someone you haven\x27t talked to in a while",
         "Give a genuine compliment to three different people today",
         "Listen actively to someone without interrupting for 5 minutes"] }]
  | .health =>
    [{ type := "physical",
       templates :=
        ["Do 20 push-ups or 10 minutes of stretching",
         "Take a 15-minute walk outside",
         "Drink 8 glasses of water today",
         "Try a new healthy recipe for dinner"] },
     { type := "mental",
       templates :=
        ["Practice deep breathing for 5 minutes",
         "Take a 10-minute break from all screens",
         "Do something that makes you laugh today",
         "Practice mindfulness while eating one meal"] }]
  | .learning =>
    [{ type := "skill",
       templates :=
        ["Learn one new word in a language you\x27re studying",
         "Watch a 10-minute educational video on a new topic",
         "Read 20 pages of a book you\x27ve been meaning to finish",
         "Practice a musical instrument for 15 minutes"] },
     { type := "knowledge",
       templates :=
        ["Research a topic you\x27re curious about for 15 minutes",
         "Ask someone about their expertise or passion",
         "Try to solve a puzzle or brain teaser",
         "Learn about a historical event that happened on this date"] }]

/-- The DIFFICULTY_MODIFIERS lookup table. -/
def DIFFICULTY_MODIFIERS : Difficulty → Modifiers
  | .easy => { time := 5, effort := 1, complexity := 1 }
  | .medium => { time := 15, effort := 2, complexity := 2 }
  | .hard => { time := 30, effort := 3, complexity := 3 }

namespace storageService

/-- Result of loadUserData: the parsed profile, the JS null when nothing is
stored, or the JS false returned from the catch block on a read error. -/
inductive LoadUserDataResult where
  | data : UserData → LoadUserDataResult
  | nullResult : LoadUserDataResult
  | falseResult : LoadUserDataResult
  deriving DecidableEq

/-- loadUserData: parses the stored profile, returns null when the key is
absent, and returns false from the catch block when the read throws. -/
def loadUserData (r : Except Unit (Option UserData)) : LoadUserDataResult :=
  match r with
  | .error _ => .falseResult
  | .ok none => .nullResult
  | .ok (some u) => .data u

/-- The JS expression userData.completedChallenges[len - 2]: the second-to-last
element, undefined (none) when the list is shorter than 2. -/
def secondToLast {α : Type} (l : List α) : Option α :=
  if l.length < 2 then none else l.get? (l.length - 2)

/-- updateUserProgress, acting on the stored profile slot. The first argument
of the result is the returned boolean; the second is the userData slot after
the call. userData? is the stored profile (none covers both the absent-profile
null and the read-error false, which take the same early-return path). w is the
outcome of the saveUserData write; its boolean result is ignored by the source,
which returns true regardless, but a failed write leaves the slot unchanged. -/
def updateUserProgress (now : Int) (challengeId : String) (completed : Bool)
    (userData? : Option UserData) (w : Except Unit Unit) :
    Bool × Option UserData :=
  match userData? with
  | none => (false, none)
  | some ud0 =>
    let ud :=
      if completed then
        let ud1 := { ud0 with
          completedChallenges :=
            ud0.completedChallenges
              ++ [({ id := challengeId, completedAt := now } : CompletionRecord)],
          totalChallenges := ud0.totalChallenges + 1 }
        let today := toDateString now
        match secondToLast ud1.completedChallenges with
        | some lastCompleted =>
          let lastDate := toDateString lastCompleted.completedAt
          let yesterday := toDateString (now - 24)
          if lastDate = yesterday then
            { ud1 with currentStreak := ud1.currentStreak + 1 }
          else if lastDate ≠ today then
            { ud1 with currentStreak := 1 }
          else ud1
        | none => { ud1 with currentStreak := 1 }
      else ud0
    match w with
    | .ok _ => (true, some ud)
    | .error _ => (true, some ud0)

/-- saveChallengeHistory, acting on the parsed history value: appends the new
challenges then splices away all but the last 100 entries. -/
def saveChallengeHistory (history challenges : List Challenge) : List Challenge :=
  let updatedHistory := history ++ challenges
  if updatedHistory.length > 100 then
    updatedHistory.drop (updatedHistory.length - 100)
  else updatedHistory

/-- loadChallengeHistory: parsed history, empty when absent or on read error. -/
def loadChallengeHistory (r : Except Unit (Option (List Challenge))) :
    List Challenge :=
  match r with
  | .error _ => []
  | .ok none => []
  | .ok (some h) => h

/-- The hard-coded default preferences object of storageService. -/
def defaultPreferences : Preferences :=
  { difficulty := .medium,
    categories := [.personal, .health, .learning],
    notifications := some true,
    reminderTime := some "09:00" }

/-- loadUserPreferences of storageService: stored value, the hard-coded default
when absent, null (none) on read error. -/
def loadUserPreferences (r : Except Unit (Option Preferences)) :
    Option Preferences :=
  match r with
  | .error _ => none
  | .ok none => some defaultPreferences
  | .ok (some p) => some p

/-- clearAllData: multiRemove of the four literal key names in the source. -/
def clearAllData (w : Except Unit Unit) (store : Store) : Bool × Store :=
  match w with
  | .error _ => (false, store)
  | .ok _ =>
    (true, store.multiRemove
      ["userData", "challengeHistory", "userPreferences", "dailyChallenges"])

/-- The snapshot object assembled by exportUserData. -/
structure ExportData where
  userData : LoadUserDataResult
  challengeHistory : List Challenge
  preferences : Option Preferences
  exportDate : Int
  version : String

/-- exportUserData: assembles the snapshot from the three loaders, each of
which absorbs its own failure; the outer catch (returning null) is modelled by
the Option result. -/
def exportUserData (rU : Except Unit (Option UserData))
    (rH : Except Unit (Option (List Challenge)))
    (rP : Except Unit (Option Preferences)) (now : Int) : Option ExportData :=
  some
    { userData := loadUserData rU,
      challengeHistory := loadChallengeHistory rH,
      preferences := loadUserPreferences rP,
      exportDate := now,
      version := "1.0.0" }

end storageService

namespace AIChallengeGenerator

/-- The mutable fields of the AIChallengeGenerator singleton. -/
structure GenState where
  userPreferences : Option Preferences
  challengeHistory : List Challenge
  deriving DecidableEq

/-- The state built by the constructor: userPreferences null, history empty. -/
def initialGenState : GenState := { userPreferences := none, challengeHistory := [] }

/-- The default preferences object of aiService (no notifications or
reminderTime fields). -/
def defaultAIPreferences : Preferences :=
  { difficulty := .medium,
    categories := [.personal, .health, .learning],
    notifications := none,
    reminderTime := none }

/-- loadUserPreferences method: stores the parsed value, the aiService default
when absent; the catch block only logs, leaving this.userPreferences as it
was. -/
def loadUserPreferences (r : Except Unit (Option Preferences)) (s : GenState) :
    GenState :=
  match r with
  | .error _ => s
  | .ok none => { s with userPreferences := some defaultAIPreferences }
  | .ok (some p) => { s with userPreferences := some p }

/-- loadChallengeHistory method: stores the parsed history, empty when absent;
the catch block only logs, leaving this.challengeHistory as it was. -/
def loadChallengeHistory (r : Except Unit (Option (List Challenge)))
    (s : GenState) : GenState :=
  match r with
  | .error _ => s
  | .ok none => { s with challengeHistory := [] }
  | .ok (some h) => { s with challengeHistory := h }

/-- The method sequence run by the exported initializeAIChallenges: load
preferences, then load history. -/
def initializeAIChallenges (r1 : Except Unit (Option Preferences))
    (r2 : Except Unit (Option (List Challenge))) (s : GenState) : GenState :=
  loadChallengeHistory r2 (loadUserPreferences r1 s)

/-- First while loop of selectCategories: draw without replacement while fewer
than 3 are selected and categories remain. One unit of fuel per iteration; the
loop body grows selected by one, so fuel 3 makes the guard, not the fuel, end
the loop. Returns the selection and the next random position. -/
def selectWithout (rand : Nat → Nat) :
    Nat → Nat → List Category → List Category → List Category × Nat
  | 0, pos, _, selected => (selected, pos)
  | Nat.succ fuel, pos, cats, selected =>
    if selected.length < 3 ∧ 0 < cats.length then
      let i := rand pos % cats.length
      selectWithout rand fuel (pos + 1) (cats.eraseIdx i)
        (selected ++ [cats.getD i Category.personal])
    else (selected, pos)

/-- Second while loop of selectCategories: pad with replacement from the full
configured list until 3 are selected. -/
def selectPad (rand : Nat → Nat) (avail : List Category) :
    Nat → Nat → List Category → List Category × Nat
  | 0, pos, selected => (selected, pos)
  | Nat.succ fuel, pos, selected =>
    if selected.length < 3 then
      selectPad rand avail fuel (pos + 1)
        (selected ++ [avail.getD (rand pos % avail.length) Category.personal])
    else (selected, pos)

/-- selectCategories: both loops then slice(0, 3). -/
def selectCategories (rand : Nat → Nat) (pos : Nat)
    (availableCategories : List Category) : List Category × Nat :=
  let r1 := selectWithout rand 3 pos availableCategories []
  let r2 := selectPad rand availableCategories 3 r1.2 r1.1
  (r2.1.take 3, r2.2)

/-- personalizeChallenge: time-of-day substitution of the word today, then the
difficulty-based literal substitutions. -/
def personalizeChallenge (now : Int) (template : String)
    (difficulty : Difficulty) : String :=
  let hour := getHours now
  let p1 :=
    if hour < 12 then template.replaceFirst "today" "this morning"
    else if hour < 17 then template.replaceFirst "today" "this afternoon"
    else template.replaceFirst "today" "this evening"
  match difficulty with
  | .easy =>
    (p1.replaceFirst "15 minutes" "5 minutes").replaceFirst
      "20 push-ups" "10 push-ups"
  | .hard =>
    (p1.replaceFirst "5 minutes" "15 minutes").replaceFirst
      "10 push-ups" "30 push-ups"
  | .medium => p1

/-- generateTitle: category emoji, first four words, ellipsis. The JS fallback
emoji for an unknown category is unreachable over the Category type. -/
def generateTitle (challenge : String) (category : Category) : String :=
  let emoji :=
    match category with
    | .personal => "💭"
    | .health => "💪"
    | .learning => "🧠"
  let words := String.intercalate " " ((challenge.splitOn " ").take 4)
  emoji ++ " " ++ words ++ "..."

/-- getRecentCategories: frequency count over the last 10 history entries,
built in JS reduce order as an association list. -/
def getRecentCategories (history : List Challenge) : List (Category × Nat) :=
  (history.drop (history.length - 10)).foldl
    (fun acc c =>
      if acc.any (fun p => p.1 = c.category) then
        acc.map (fun p => if p.1 = c.category then (p.1, p.2 + 1) else p)
      else acc ++ [(c.category, 1)])
    []

/-- calculateSuccessRate: completed count over total, 0.8 when empty. -/
def calculateSuccessRate (history : List Challenge) : Rat :=
  if history.length = 0 then (4 : Rat) / 5
  else ((history.filter (fun c => c.completed)).length : Rat) / (history.length : Rat)

/-- getPersonalizationFactors. Day of week is modelled as the day number mod 7;
its absolute alignment with JS getDay is irrelevant to every claim. -/
def getPersonalizationFactors (now : Int) (prefs : Preferences)
    (history : List Challenge) : PersonalizationFactors :=
  { timeOfDay := getHours now,
    dayOfWeek := (toDateString now).emod 7,
    userDifficulty := prefs.difficulty,
    recentCategories := getRecentCategories history,
    successRate := calculateSuccessRate history }

/-- generateChallengeForCategory: consumes two random draws (template group,
template) and builds the challenge record. Returns the challenge and the next
random position. -/
def generateChallengeForCategory (rand : Nat → Nat) (pos : Nat) (now : Int)
    (prefs : Preferences) (history : List Challenge) (category : Category)
    (index : Nat) : Challenge × Nat :=
  let templates := CHALLENGE_TEMPLATES category
  let templateGroup :=
    templates.getD (rand pos % templates.length) { type := "", templates := [] }
  let template :=
    templateGroup.templates.getD
      (rand (pos + 1) % templateGroup.templates.length) ""
  let difficulty := prefs.difficulty
  let modifiers := DIFFICULTY_MODIFIERS difficulty
  let personalizedChallenge := personalizeChallenge now template difficulty
  ({ id := "challenge_" ++ toString now ++ "_" ++ toString index,
     title := generateTitle personalizedChallenge category,
     description := personalizedChallenge,
     category := category,
     type := templateGroup.type,
     difficulty := difficulty,
     estimatedTime := modifiers.time,
     effortLevel := modifiers.effort,
     complexity := modifiers.complexity,
     createdAt := now,
     completed := false,
     completedAt := none,
     userNotes := "",
     aiGenerated := true,
     personalizationFactors := getPersonalizationFactors now prefs history },
   pos + 2)

/-- The forEach loop of generateDailyChallenges, threading the slot index and
the random position. -/
def genForEach (rand : Nat → Nat) (now : Int) (prefs : Preferences)
    (history : List Challenge) :
    List Category → Nat → Nat → List Challenge × Nat
  | [], _, pos => ([], pos)
  | c :: rest, index, pos =>
    let r1 := generateChallengeForCategory rand pos now prefs history c index
    let r2 := genForEach rand now prefs history rest (index + 1) r1.2
    (r1.1 :: r2.1, r2.2)

/-- generateDailyChallenges. The source dereferences
this.userPreferences.categories with no guard and no try block, so when the
preferences were never loaded (userPreferences null) the call throws a
TypeError to its caller; none models that uncaught throw. -/
def generateDailyChallenges (rand : Nat → Nat) (pos : Nat) (now : Int)
    (s : GenState) : Option (List Challenge × Nat) :=
  match s.userPreferences with
  | none => none
  | some prefs =>
    let sel := selectCategories rand pos prefs.categories
    some (genForEach rand now prefs s.challengeHistory sel.1 0 sel.2)

/-- saveChallenges: writes the batch under the per-day key
dailyChallenges_(toDateString now), pushes the batch onto the in-memory
history, then writes the whole (uncapped) history under challengeHistory.
w1 and w2 are the outcomes of the two setItem calls; a thrown write is caught
and returns false, with all effects up to the throw kept. -/
def saveChallenges (now : Int) (w1 w2 : Except Unit Unit) (s : GenState)
    (store : Store) (challenges : List Challenge) :
    Bool × GenState × Store :=
  match w1 with
  | .error _ => (false, s, store)
  | .ok _ =>
    let store1 :=
      store.set ("dailyChallenges_" ++ toString (toDateString now))
        (Val.challenges challenges)
    let s1 := { s with challengeHistory := s.challengeHistory ++ challenges }
    match w2 with
    | .error _ => (false, s1, store1)
    | .ok _ =>
      (true, s1, store1.set "challengeHistory" (Val.challenges s1.challengeHistory))

/-- getTodaysChallenges: returns the cached batch for today when present, else
generates, saves (ignoring the save result) and returns the fresh batch. rRead
is the outcome of the getItem call; a throw anywhere inside, including the
TypeError of generateDailyChallenges, is caught and yields the empty list. -/
def getTodaysChallenges (rand : Nat → Nat) (pos : Nat) (now : Int)
    (rRead : Except Unit Unit) (w1 w2 : Except Unit Unit) (s : GenState)
    (store : Store) : List Challenge × GenState × Store :=
  match rRead with
  | .error _ => ([], s, store)
  | .ok _ =>
    match store ("dailyChallenges_" ++ toString (toDateString now)) with
    | some (Val.challenges chs) => (chs, s, store)
    | _ =>
      match generateDailyChallenges rand pos now s with
      | none => ([], s, store)
      | some r =>
        let saved := saveChallenges now w1 w2 s store r.1
        (r.1, saved.2.1, saved.2.2)

end AIChallengeGenerator

/-! Concrete fixtures used by witnesses and counterexample evaluations. -/

/-- A degenerate random stream. -/
def randZero : Nat → Nat := fun _ => 0

/-- Preferences with the single category health and difficulty easy. -/
def healthPreferences : Preferences :=
  { difficulty := .easy,
    categories := [.health],
    notifications := none,
    reminderTime := none }

/-- A concrete challenge value used to populate stores and histories. -/
def dummyChallenge : Challenge :=
  { id := "challenge_0_0",
    title := "t",
    description := "d",
    category := .health,
    type := "physical",
    difficulty := .easy,
    estimatedTime := 5,
    effortLevel := 1,
    complexity := 1,
    createdAt := 0,
    completed := false,
    completedAt := none,
    userNotes := "",
    aiGenerated := true,
    personalizationFactors :=
      { timeOfDay := 0, dayOfWeek := 0, userDifficulty := .easy,
        recentCategories := [], successRate := (4 : Rat) / 5 } }

/-- A store whose only populated key is the cached batch for day 0. -/
def cachedStore : Store :=
  Store.set emptyStore "dailyChallenges_0" (Val.challenges [dummyChallenge])

/-- A concrete profile whose single completion was on calendar day 0. -/
def profileDayZero : UserData :=
  { id := "u1",
    name := "User",
    joinDate := 0,
    completedChallenges := [{ id := "a", completedAt := 0 }],
    currentStreak := 5,
    totalChallenges := 3,
    preferences := healthPreferences }

/-! Helper lemmas about list indexing used by the progress-tracker claims. -/

theorem get?_length_sub_one {α : Type} : ∀ l : List α, l.get? (l.length - 1) = l.getLast?
  | [] => rfl
  | [_] => rfl
  | a :: b :: t => by
    have ih := get?_length_sub_one (b :: t)
    rw [List.getLast?_cons_cons, ← ih]
    simp only [List.length_cons]
    rfl

/-- The JS second-to-last access on a freshly pushed list reads the last
element of the original list. -/
theorem secondToLast_append {α : Type} (l : List α) (x : α) :
    storageService.secondToLast (l ++ [x]) = l.getLast? := by
  cases l with
  | nil => rfl
  | cons a t =>
    unfold storageService.secondToLast
    have hlen : ((a :: t) ++ [x]).length = t.length + 2 := by simp
    rw [hlen]
    rw [if_neg (by omega)]
    have hidx : t.length + 2 - 2 = t.length := by omega
    rw [hidx]
    have hlt : t.length < (a :: t).length := by simp
    rw [List.get?_append hlt]
    have := get?_length_sub_one (a :: t)
    simpa using this

/-! Claim theorems. -/

/-- C1: if a challenge batch is already stored under day D's key, calling
getTodaysChallenges again on day D returns exactly that stored batch, changes
neither the generator state nor the store (so no new challenges are generated),
and the stored Challenge History Log is the same after the call. -/
theorem C1_getTodaysChallenges_cached (rand : Nat → Nat) (pos : Nat) (now : Int)
    (w1 w2 : Except Unit Unit) (s : AIChallengeGenerator.GenState) (store : Store)
    (batch : List Challenge)
    (h : store ("dailyChallenges_" ++ toString (toDateString now))
        = some (Val.challenges batch)) :
    AIChallengeGenerator.getTodaysChallenges rand pos now (Except.ok ()) w1 w2 s store
      = (batch, s, store)
    ∧ (AIChallengeGenerator.getTodaysChallenges rand pos now (Except.ok ()) w1 w2
        s store).2.2 "challengeHistory" = store "challengeHistory" := by
  have hmain :
      AIChallengeGenerator.getTodaysChallenges rand pos now (Except.ok ()) w1 w2 s store
        = (batch, s, store) := by
    unfold AIChallengeGenerator.getTodaysChallenges
    rw [h]
  exact ⟨hmain, by rw [hmain]⟩

/-- Witness for C1 at a concrete cached store on day 0. -/
theorem C1_cached_witness :
    AIChallengeGenerator.getTodaysChallenges randZero 0 0 (Except.ok ())
        (Except.ok ()) (Except.ok ()) AIChallengeGenerator.initialGenState cachedStore
      = ([dummyChallenge], AIChallengeGenerator.initialGenState, cachedStore)
    ∧ (AIChallengeGenerator.getTodaysChallenges randZero 0 0 (Except.ok ())
        (Except.ok ()) (Except.ok ()) AIChallengeGenerator.initialGenState
        cachedStore).2.2 "challengeHistory" = cachedStore "challengeHistory" :=
  C1_getTodaysChallenges_cached randZero 0 0 (Except.ok ()) (Except.ok ())
    AIChallengeGenerator.initialGenState cachedStore [dummyChallenge] rfl

/-- C2 fails on the code: with the generator history already holding 100
entries, AIChallengeGenerator.saveChallenges writes a 103-entry history under
the challengeHistory key with no truncation; only
storageService.saveChallengeHistory caps the log at 100. -/
theorem C2_saveChallenges_uncapped :
    ((AIChallengeGenerator.saveChallenges 0 (Except.ok ()) (Except.ok ())
        { userPreferences := none,
          challengeHistory := List.replicate 100 dummyChallenge }
        emptyStore (List.replicate 3 dummyChallenge)).2.2) "challengeHistory"
      = some (Val.challenges
          (List.replicate 100 dummyChallenge ++ List.replicate 3 dummyChallenge))
    ∧ (List.replicate 100 dummyChallenge
        ++ List.replicate 3 dummyChallenge).length = 103 := by
  constructor
  · rfl
  · simp

/-- C6 fails on the code: a storage read failure during initializeAIChallenges
is caught but leaves userPreferences null instead of falling back to the
defaults, and the public generateDailyChallenges operation then dereferences
null and propagates the thrown TypeError (modelled by none) to the caller
rather than returning a benign fallback. -/
theorem C6_generateDailyChallenges_throws :
    (AIChallengeGenerator.initializeAIChallenges (Except.error ()) (Except.error ())
        AIChallengeGenerator.initialGenState).userPreferences = none
    ∧ AIChallengeGenerator.generateDailyChallenges randZero 0 0
        (AIChallengeGenerator.initializeAIChallenges (Except.error ())
          (Except.error ()) AIChallengeGenerator.initialGenState) = none :=
  ⟨rfl, rfl⟩

/-- C7 fails on the code: clearAllData removes only the four literal keys
userData, challengeHistory, userPreferences and dailyChallenges, while the
batches saved by saveChallenges live under per-day keys such as
dailyChallenges_0, which therefore remain populated after the clear (the
challengeHistory key, by contrast, really is removed). -/
theorem C7_clearAllData_leaves_daily_key :
    ((storageService.clearAllData (Except.ok ())
        ((AIChallengeGenerator.saveChallenges 0 (Except.ok ()) (Except.ok ())
          AIChallengeGenerator.initialGenState emptyStore
          [dummyChallenge]).2.2)).2) "dailyChallenges_0"
      = some (Val.challenges [dummyChallenge])
    ∧ ((storageService.clearAllData (Except.ok ())
        ((AIChallengeGenerator.saveChallenges 0 (Except.ok ()) (Except.ok ())
          AIChallengeGenerator.initialGenState emptyStore
          [dummyChallenge]).2.2)).2) "challengeHistory" = none := by
  constructor
  · rfl
  · rfl

/-- C10: updateUserProgress with completed false re-saves the stored profile
with identical values and returns true; with no stored profile it returns
false for any arguments and the stored slot is unchanged. -/
theorem C10_not_completed_frame (now : Int) (challengeId : String)
    (completed : Bool) (ud : UserData) :
    storageService.updateUserProgress now challengeId false (some ud) (Except.ok ())
      = (true, some ud)
    ∧ storageService.updateUserProgress now challengeId completed none (Except.ok ())
      = (false, none) := by
  constructor
  · rfl
  · rfl

/-! Characterization of updateUserProgress on a completion, by the calendar
day of the last prior record. -/

theorem updateUserProgress_noPrior (now : Int) (cid : String) (ud : UserData)
    (h : ud.completedChallenges.getLast? = none) :
    storageService.updateUserProgress now cid true (some ud) (Except.ok ())
      = (true, some { ud with
          completedChallenges :=
            ud.completedChallenges ++ [{ id := cid, completedAt := now }],
          totalChallenges := ud.totalChallenges + 1,
          currentStreak := 1 }) := by
  unfold storageService.updateUserProgress
  simp only [if_true]
  rw [show storageService.secondToLast
        (ud.completedChallenges ++ [({ id := cid, completedAt := now } : CompletionRecord)])
      = ud.completedChallenges.getLast? from secondToLast_append _ _, h]

theorem updateUserProgress_yesterday (now : Int) (cid : String) (ud : UserData)
    (last : CompletionRecord)
    (h : ud.completedChallenges.getLast? = some last)
    (hy : toDateString last.completedAt = toDateString (now - 24)) :
    storageService.updateUserProgress now cid true (some ud) (Except.ok ())
      = (true, some { ud with
          completedChallenges :=
            ud.completedChallenges ++ [{ id := cid, completedAt := now }],
          totalChallenges := ud.totalChallenges + 1,
          currentStreak := ud.currentStreak + 1 }) := by
  unfold storageService.updateUserProgress
  simp only [if_true]
  rw [show storageService.secondToLast
        (ud.completedChallenges ++ [({ id := cid, completedAt := now } : CompletionRecord)])
      = ud.completedChallenges.getLast? from secondToLast_append _ _, h]
  simp [hy]

theorem updateUserProgress_gap (now : Int) (cid : String) (ud : UserData)
    (last : CompletionRecord)
    (h : ud.completedChallenges.getLast? = some last)
    (hy : toDateString last.completedAt ≠ toDateString (now - 24))
    (ht : toDateString last.completedAt ≠ toDateString now) :
    storageService.updateUserProgress now cid true (some ud) (Except.ok ())
      = (true, some { ud with
          completedChallenges :=
            ud.completedChallenges ++ [{ id := cid, completedAt := now }],
          totalChallenges := ud.totalChallenges + 1,
          currentStreak := 1 }) := by
  unfold storageService.updateUserProgress
  simp only [if_true]
  rw [show storageService.secondToLast
        (ud.completedChallenges ++ [({ id := cid, completedAt := now } : CompletionRecord)])
      = ud.completedChallenges.getLast? from secondToLast_append _ _, h]
  simp [hy, ht]

theorem updateUserProgress_sameDay (now : Int) (cid : String) (ud : UserData)
    (last : CompletionRecord)
    (h : ud.completedChallenges.getLast? = some last)
    (hy : toDateString last.completedAt ≠ toDateString (now - 24))
    (ht : toDateString last.completedAt = toDateString now) :
    storageService.updateUserProgress now cid true (some ud) (Except.ok ())
      = (true, some { ud with
          completedChallenges :=
            ud.completedChallenges ++ [{ id := cid, completedAt := now }],
          totalChallenges := ud.totalChallenges + 1 }) := by
  unfold storageService.updateUserProgress
  simp only [if_true]
  rw [show storageService.secondToLast
        (ud.completedChallenges ++ [({ id := cid, completedAt := now } : CompletionRecord)])
      = ud.completedChallenges.getLast? from secondToLast_append _ _, h]
  simp [hy, ht]
  exact fun hc => hy (ht.trans hc)

/-- A concrete profile whose single completion was at hour 26, calendar day 1. -/
def profileDayOne : UserData :=
  { profileDayZero with completedChallenges := [{ id := "a", completedAt := 26 }] }

/-- C3: a completed update always appends a completion record and increments
totalChallenges; the new currentStreak is the old plus one when the previous
record's calendar day is yesterday, and 1 both when the previous record's day
differs from today and yesterday and when there is no prior record. -/
theorem C3_updateUserProgress_completed (now : Int) (challengeId : String)
    (ud : UserData) :
    ∃ ud2,
      storageService.updateUserProgress now challengeId true (some ud) (Except.ok ())
        = (true, some ud2)
      ∧ ud2.completedChallenges
          = ud.completedChallenges ++ [{ id := challengeId, completedAt := now }]
      ∧ ud2.totalChallenges = ud.totalChallenges + 1
      ∧ (ud.completedChallenges.getLast? = none → ud2.currentStreak = 1)
      ∧ ∀ last, ud.completedChallenges.getLast? = some last →
          (toDateString last.completedAt = toDateString (now - 24) →
            ud2.currentStreak = ud.currentStreak + 1)
          ∧ (toDateString last.completedAt ≠ toDateString (now - 24) →
            toDateString last.completedAt ≠ toDateString now →
            ud2.currentStreak = 1) := by
  cases h : ud.completedChallenges.getLast? with
  | none =>
    refine ⟨_, updateUserProgress_noPrior now challengeId ud h, rfl, rfl,
      fun _ => rfl, ?_⟩
    intro last hlast
    cases hlast
  | some last =>
    by_cases hy : toDateString last.completedAt = toDateString (now - 24)
    · refine ⟨_, updateUserProgress_yesterday now challengeId ud last h hy, rfl, rfl,
        ?_, ?_⟩
      · intro hn; cases hn
      · intro l2 hl2
        injection hl2 with he
        subst he
        exact ⟨fun _ => rfl, fun hny _ => absurd hy hny⟩
    · by_cases ht : toDateString last.completedAt = toDateString now
      · refine ⟨_, updateUserProgress_sameDay now challengeId ud last h hy ht, rfl,
          rfl, ?_, ?_⟩
        · intro hn; cases hn
        · intro l2 hl2
          injection hl2 with he
          subst he
          exact ⟨fun hyy => absurd hyy hy, fun _ htt => absurd ht htt⟩
      · refine ⟨_, updateUserProgress_gap now challengeId ud last h hy ht, rfl, rfl,
          ?_, ?_⟩
        · intro hn; cases hn
        · intro l2 hl2
          injection hl2 with he
          subst he
          exact ⟨fun hyy => absurd hyy hy, fun _ _ => rfl⟩

/-- Witness for C3: completing on day 1 after a completion on day 0 increments
the streak from 5 to 6 and the total from 3 to 4. -/
theorem C3_completed_witness :
    ∃ ud2,
      storageService.updateUserProgress 25 "c1" true (some profileDayZero)
        (Except.ok ()) = (true, some ud2)
      ∧ ud2.currentStreak = 6
      ∧ ud2.totalChallenges = 4
      ∧ ud2.completedChallenges.length = 2 := by
  obtain ⟨ud2, h1, h2, h3, _, h5⟩ :=
    C3_updateUserProgress_completed 25 "c1" profileDayZero
  refine ⟨ud2, h1, ?_, ?_, ?_⟩
  · have hinc := (h5 { id := "a", completedAt := 0 } rfl).1 (by decide)
    rw [hinc]; decide
  · rw [h3]; decide
  · rw [h2]; rfl

/-- C9: when the most recent completion record was made today (same calendar
day as now, different from yesterday), a further completed update leaves
currentStreak unchanged while still appending a completion record and
incrementing totalChallenges by 1. -/
theorem C9_same_day_streak_unchanged (now : Int) (challengeId : String)
    (ud : UserData) (last : CompletionRecord)
    (hlast : ud.completedChallenges.getLast? = some last)
    (ht : toDateString last.completedAt = toDateString now)
    (hy : toDateString last.completedAt ≠ toDateString (now - 24)) :
    ∃ ud2,
      storageService.updateUserProgress now challengeId true (some ud) (Except.ok ())
        = (true, some ud2)
      ∧ ud2.currentStreak = ud.currentStreak
      ∧ ud2.completedChallenges
          = ud.completedChallenges ++ [{ id := challengeId, completedAt := now }]
      ∧ ud2.totalChallenges = ud.totalChallenges + 1 :=
  ⟨_, updateUserProgress_sameDay now challengeId ud last hlast hy ht, rfl, rfl, rfl⟩

/-- Witness for C9: a second completion at hour 30 (day 1) after one at hour 26
(also day 1) keeps the streak at its old value. -/
theorem C9_same_day_witness :
    ∃ ud2,
      storageService.updateUserProgress 30 "c2" true (some profileDayOne)
        (Except.ok ()) = (true, some ud2)
      ∧ ud2.currentStreak = profileDayOne.currentStreak
      ∧ ud2.completedChallenges
          = profileDayOne.completedChallenges ++ [{ id := "c2", completedAt := 30 }]
      ∧ ud2.totalChallenges = profileDayOne.totalChallenges + 1 :=
  C9_same_day_streak_unchanged 30 "c2" profileDayOne { id := "a", completedAt := 26 }
    rfl (by decide) (by decide)

/-! Lemmas about the category-selection loops. -/

/-- Removing the drawn element: the drawn element consed onto the remainder is
a permutation of the original list. -/
theorem getD_cons_eraseIdx_perm {α : Type} (d : α) :
    ∀ (l : List α) (i : Nat), i < l.length →
      List.Perm (l.getD i d :: l.eraseIdx i) l
  | _ :: _, 0, _ => by simp
  | a :: t, i + 1, h => by
    have ht : i < t.length := by simpa using h
    have ih := getD_cons_eraseIdx_perm d t i ht
    simp only [List.getD_cons_succ, List.eraseIdx_cons_succ]
    exact (List.Perm.swap a (t.getD i d) (t.eraseIdx i)).trans (List.Perm.cons a ih)

theorem selectWithout_mem_avail (rand : Nat → Nat) (avail : List Category) :
    ∀ (fuel pos : Nat) (cats selected : List Category),
      (∀ c ∈ cats, c ∈ avail) → (∀ c ∈ selected, c ∈ avail) →
      ∀ c ∈ (AIChallengeGenerator.selectWithout rand fuel pos cats selected).1,
        c ∈ avail := by
  intro fuel
  induction fuel with
  | zero => intro pos cats selected _ hs c hm; exact hs c hm
  | succ fuel ih =>
    intro pos cats selected hc hs c hm
    by_cases hcond : selected.length < 3 ∧ 0 < cats.length
    · simp only [AIChallengeGenerator.selectWithout, if_pos hcond] at hm
      have hi : rand pos % cats.length < cats.length := Nat.mod_lt _ hcond.2
      have hperm := getD_cons_eraseIdx_perm Category.personal cats _ hi
      refine ih (pos + 1) _ _ ?_ ?_ c hm
      · intro x hx
        exact hc x (hperm.subset (List.mem_cons_of_mem _ hx))
      · intro x hx
        rcases List.mem_append.mp hx with h1 | h1
        · exact hs x h1
        · rcases List.mem_singleton.mp h1 with rfl
          exact hc _ (hperm.subset (List.mem_cons_self _ _))
    · simp only [AIChallengeGenerator.selectWithout, if_neg hcond] at hm
      exact hs c hm

theorem selectWithout_nodup (rand : Nat → Nat) :
    ∀ (fuel pos : Nat) (cats selected : List Category),
      (selected ++ cats).Nodup →
      ((AIChallengeGenerator.selectWithout rand fuel pos cats selected).1).Nodup := by
  intro fuel
  induction fuel with
  | zero => intro pos cats selected h; exact (List.nodup_append.mp h).1
  | succ fuel ih =>
    intro pos cats selected h
    by_cases hcond : selected.length < 3 ∧ 0 < cats.length
    · simp only [AIChallengeGenerator.selectWithout, if_pos hcond]
      have hi : rand pos % cats.length < cats.length := Nat.mod_lt _ hcond.2
      have hperm := getD_cons_eraseIdx_perm Category.personal cats _ hi
      refine ih (pos + 1) _ _ ?_
      have hp2 : List.Perm
          ((selected ++ [cats.getD (rand pos % cats.length) Category.personal])
            ++ cats.eraseIdx (rand pos % cats.length))
          (selected ++ cats) := by
        rw [List.append_assoc, List.singleton_append]
        exact List.Perm.append_left selected hperm
      exact hp2.nodup_iff.mpr h
    · simp only [AIChallengeGenerator.selectWithout, if_neg hcond]
      exact (List.nodup_append.mp h).1

theorem selectWithout_length (rand : Nat → Nat) :
    ∀ (fuel pos : Nat) (cats selected : List Category),
      selected.length + fuel = 3 → fuel ≤ cats.length →
      ((AIChallengeGenerator.selectWithout rand fuel pos cats selected).1).length
        = 3 := by
  intro fuel
  induction fuel with
  | zero => intro pos cats selected h _; simpa using h
  | succ fuel ih =>
    intro pos cats selected h hf
    have hcond : selected.length < 3 ∧ 0 < cats.length := by omega
    simp only [AIChallengeGenerator.selectWithout, if_pos hcond]
    have hi : rand pos % cats.length < cats.length := Nat.mod_lt _ hcond.2
    refine ih (pos + 1) _ _ ?_ ?_
    · simp only [List.length_append, List.length_singleton]; omega
    · have h2 := List.length_eraseIdx_add_one hi
      omega

theorem selectPad_length_ge (rand : Nat → Nat) (avail : List Category) :
    ∀ (fuel pos : Nat) (selected : List Category),
      3 ≤ selected.length + fuel →
      3 ≤ ((AIChallengeGenerator.selectPad rand avail fuel pos selected).1).length := by
  intro fuel
  induction fuel with
  | zero => intro pos selected h; simpa using h
  | succ fuel ih =>
    intro pos selected h
    by_cases hcond : selected.length < 3
    · simp only [AIChallengeGenerator.selectPad, if_pos hcond]
      refine ih (pos + 1) _ ?_
      simp only [List.length_append, List.length_singleton]
      omega
    · simp only [AIChallengeGenerator.selectPad, if_neg hcond]
      omega

theorem selectPad_mem_avail (rand : Nat → Nat) (avail : List Category)
    (hne : avail ≠ []) :
    ∀ (fuel pos : Nat) (selected : List Category),
      (∀ c ∈ selected, c ∈ avail) →
      ∀ c ∈ ((AIChallengeGenerator.selectPad rand avail fuel pos selected).1),
        c ∈ avail := by
  intro fuel
  induction fuel with
  | zero => intro pos selected hs c hm; exact hs c hm
  | succ fuel ih =>
    intro pos selected hs c hm
    by_cases hcond : selected.length < 3
    · simp only [AIChallengeGenerator.selectPad, if_pos hcond] at hm
      refine ih (pos + 1) _ ?_ c hm
      intro x hx
      rcases List.mem_append.mp hx with h1 | h1
      · exact hs x h1
      · rcases List.mem_singleton.mp h1 with rfl
        have hl : 0 < avail.length := List.length_pos.mpr hne
        have hi : rand pos % avail.length < avail.length := Nat.mod_lt _ hl
        rw [List.getD_eq_getElem avail Category.personal hi]
        exact List.getElem_mem hi
    · simp only [AIChallengeGenerator.selectPad, if_neg hcond] at hm
      exact hs c hm

theorem selectPad_of_length_ge (rand : Nat → Nat) (avail : List Category)
    (fuel pos : Nat) (selected : List Category) (h : ¬ selected.length < 3) :
    AIChallengeGenerator.selectPad rand avail fuel pos selected = (selected, pos) := by
  cases fuel with
  | zero => rfl
  | succ fuel => simp only [AIChallengeGenerator.selectPad, if_neg h]

theorem selectCategories_length (rand : Nat → Nat) (pos : Nat)
    (avail : List Category) :
    ((AIChallengeGenerator.selectCategories rand pos avail).1).length = 3 := by
  unfold AIChallengeGenerator.selectCategories
  have h := selectPad_length_ge rand avail 3
    (AIChallengeGenerator.selectWithout rand 3 pos avail []).2
    (AIChallengeGenerator.selectWithout rand 3 pos avail []).1 (by omega)
  simp only [List.length_take]
  omega

theorem selectCategories_mem_avail (rand : Nat → Nat) (pos : Nat)
    (avail : List Category) (hne : avail ≠ []) :
    ∀ c ∈ (AIChallengeGenerator.selectCategories rand pos avail).1, c ∈ avail := by
  intro c hc
  unfold AIChallengeGenerator.selectCategories at hc
  simp only at hc
  have hc2 := (List.take_sublist 3 _).subset hc
  exact selectPad_mem_avail rand avail hne 3 _ _
    (selectWithout_mem_avail rand avail 3 pos avail [] (fun x hx => hx)
      (by simp)) c hc2

theorem selectCategories_nodup (rand : Nat → Nat) (pos : Nat)
    (avail : List Category) (hnd : avail.Nodup) (hlen : 3 ≤ avail.length) :
    ((AIChallengeGenerator.selectCategories rand pos avail).1).Nodup := by
  unfold AIChallengeGenerator.selectCategories
  simp only
  have hw := selectWithout_length rand 3 pos avail [] (by simp) hlen
  rw [selectPad_of_length_ge rand avail 3 _ _ (by omega)]
  exact List.Nodup.sublist (List.take_sublist 3 _)
    (selectWithout_nodup rand 3 pos avail [] (by simpa using hnd))

/-! Lemmas about the per-challenge synthesis loop. -/

theorem genForEach_map_category (rand : Nat → Nat) (now : Int)
    (prefs : Preferences) (hist : List Challenge) :
    ∀ (cs : List Category) (idx pos : Nat),
      ((AIChallengeGenerator.genForEach rand now prefs hist cs idx pos).1).map
        (fun ch => ch.category) = cs
  | [], _, _ => rfl
  | c :: rest, idx, pos => by
    have ih := genForEach_map_category rand now prefs hist rest (idx + 1)
      (AIChallengeGenerator.generateChallengeForCategory rand pos now prefs hist
        c idx).2
    simp only [AIChallengeGenerator.genForEach, List.map_cons, ih]
    rfl

theorem genForEach_modifiers (rand : Nat → Nat) (now : Int)
    (prefs : Preferences) (hist : List Challenge) :
    ∀ (cs : List Category) (idx pos : Nat),
      ∀ ch ∈ (AIChallengeGenerator.genForEach rand now prefs hist cs idx pos).1,
        ch.estimatedTime = (DIFFICULTY_MODIFIERS prefs.difficulty).time
        ∧ ch.effortLevel = (DIFFICULTY_MODIFIERS prefs.difficulty).effort
        ∧ ch.complexity = (DIFFICULTY_MODIFIERS prefs.difficulty).complexity
  | [], _, _, ch, hm => by simp [AIChallengeGenerator.genForEach] at hm
  | c :: rest, idx, pos, ch, hm => by
    simp only [AIChallengeGenerator.genForEach] at hm
    rcases List.mem_cons.mp hm with h1 | h1
    · subst h1; exact ⟨rfl, rfl, rfl⟩
    · exact genForEach_modifiers rand now prefs hist rest (idx + 1) _ ch h1

/-- C4: every challenge produced by generateDailyChallenges under a non-empty
configured category list has a category drawn from that list. -/
theorem C4_generated_category_in_prefs (rand : Nat → Nat) (pos : Nat) (now : Int)
    (prefs : Preferences) (hist : List Challenge)
    (hne : prefs.categories ≠ []) :
    ∀ r, AIChallengeGenerator.generateDailyChallenges rand pos now
        { userPreferences := some prefs, challengeHistory := hist } = some r →
      ∀ ch ∈ r.1, ch.category ∈ prefs.categories := by
  intro r hr ch hch
  have hr2 : some (AIChallengeGenerator.genForEach rand now prefs hist
      (AIChallengeGenerator.selectCategories rand pos prefs.categories).1 0
      (AIChallengeGenerator.selectCategories rand pos prefs.categories).2)
      = some r := hr
  injection hr2 with hr3
  subst hr3
  have hcat : ch.category
      ∈ (AIChallengeGenerator.selectCategories rand pos prefs.categories).1 := by
    rw [← genForEach_map_category rand now prefs hist
      (AIChallengeGenerator.selectCategories rand pos prefs.categories).1 0
      (AIChallengeGenerator.selectCategories rand pos prefs.categories).2]
    exact List.mem_map_of_mem _ hch
  exact selectCategories_mem_avail rand pos prefs.categories hne ch.category hcat

/-- The challenge batch generated from the single-category health preferences
with a degenerate random stream, used as a concrete witness input. -/
def healthBatch : List Challenge × Nat :=
  AIChallengeGenerator.genForEach randZero 0 healthPreferences []
    (AIChallengeGenerator.selectCategories randZero 0 healthPreferences.categories).1
    0 (AIChallengeGenerator.selectCategories randZero 0 healthPreferences.categories).2

/-- The concrete health batch is nonempty: its category list has length 3. -/
theorem healthBatch_length : healthBatch.1.length = 3 := by
  have hlm := congrArg List.length (genForEach_map_category randZero 0
    healthPreferences []
    (AIChallengeGenerator.selectCategories randZero 0 healthPreferences.categories).1
    0
    (AIChallengeGenerator.selectCategories randZero 0 healthPreferences.categories).2)
  rw [List.length_map] at hlm
  exact hlm.trans (selectCategories_length randZero 0 healthPreferences.categories)

/-- The first element of the concrete health batch is a member of it. -/
theorem healthBatch_head_mem :
    healthBatch.1.getD 0 dummyChallenge ∈ healthBatch.1 := by
  have hlen := healthBatch_length
  rw [List.getD_eq_getElem healthBatch.1 dummyChallenge (by omega)]
  exact List.getElem_mem (by omega)

/-- Witness for C4: with categories = [health], the first generated challenge
of the concrete batch is categorized health. -/
theorem C4_category_witness :
    (healthBatch.1.getD 0 dummyChallenge).category ∈ healthPreferences.categories :=
  C4_generated_category_in_prefs randZero 0 0 healthPreferences [] (by decide)
    healthBatch rfl (healthBatch.1.getD 0 dummyChallenge) healthBatch_head_mem

/-- C5: generateDailyChallenges under a non-empty configured category list
returns exactly 3 challenges; when at least 3 distinct categories are
configured (a duplicate-free list of length at least 3) the 3 chosen categories
are pairwise distinct, and in every case (including the padded
fewer-than-3-configured case) each chosen category comes from the configured
list. -/
theorem C5_exactly_three_challenges (rand : Nat → Nat) (pos : Nat) (now : Int)
    (prefs : Preferences) (hist : List Challenge)
    (hne : prefs.categories ≠ []) :
    ∀ r, AIChallengeGenerator.generateDailyChallenges rand pos now
        { userPreferences := some prefs, challengeHistory := hist } = some r →
      r.1.length = 3
      ∧ (prefs.categories.Nodup → 3 ≤ prefs.categories.length →
          ((r.1).map (fun ch => ch.category)).Nodup)
      ∧ ∀ ch ∈ r.1, ch.category ∈ prefs.categories := by
  intro r hr
  have hr2 : some (AIChallengeGenerator.genForEach rand now prefs hist
      (AIChallengeGenerator.selectCategories rand pos prefs.categories).1 0
      (AIChallengeGenerator.selectCategories rand pos prefs.categories).2)
      = some r := hr
  injection hr2 with hr3
  subst hr3
  have hmap := genForEach_map_category rand now prefs hist
    (AIChallengeGenerator.selectCategories rand pos prefs.categories).1 0
    (AIChallengeGenerator.selectCategories rand pos prefs.categories).2
  refine ⟨?_, ?_, ?_⟩
  · have hlm := congrArg List.length hmap
    rw [List.length_map] at hlm
    rw [hlm, selectCategories_length]
  · intro hnd hlen
    rw [hmap]
    exact selectCategories_nodup rand pos prefs.categories hnd hlen
  · intro ch hch
    have hcat : ch.category
        ∈ (AIChallengeGenerator.selectCategories rand pos prefs.categories).1 := by
      rw [← hmap]
      exact List.mem_map_of_mem _ hch
    exact selectCategories_mem_avail rand pos prefs.categories hne ch.category hcat

/-- The challenge batch generated from the default three-category preferences
with a degenerate random stream, used as a concrete witness input. -/
def defaultBatch : List Challenge × Nat :=
  AIChallengeGenerator.genForEach randZero 0
    AIChallengeGenerator.defaultAIPreferences []
    (AIChallengeGenerator.selectCategories randZero 0
      AIChallengeGenerator.defaultAIPreferences.categories).1
    0
    (AIChallengeGenerator.selectCategories randZero 0
      AIChallengeGenerator.defaultAIPreferences.categories).2

/-- Witness for C5 at the default preferences: 3 challenges with pairwise
distinct categories. -/
theorem C5_three_witness :
    defaultBatch.1.length = 3
    ∧ ((defaultBatch.1).map (fun ch => ch.category)).Nodup := by
  have h := C5_exactly_three_challenges randZero 0 0
    AIChallengeGenerator.defaultAIPreferences [] (by decide) defaultBatch rfl
  exact ⟨h.1, h.2.1 (by decide) (by decide)⟩

/-- C8: every challenge produced by generateDailyChallenges carries the
estimatedTime, effortLevel and complexity of the DIFFICULTY_MODIFIERS entry for
the active difficulty; in particular estimatedTime is 5 under easy and 30 under
hard. -/
theorem C8_difficulty_modifier_fields (rand : Nat → Nat) (pos : Nat) (now : Int)
    (prefs : Preferences) (hist : List Challenge)
    (hne : prefs.categories ≠ []) :
    ∀ r, AIChallengeGenerator.generateDailyChallenges rand pos now
        { userPreferences := some prefs, challengeHistory := hist } = some r →
      (∀ ch ∈ r.1,
        ch.estimatedTime = (DIFFICULTY_MODIFIERS prefs.difficulty).time
        ∧ ch.effortLevel = (DIFFICULTY_MODIFIERS prefs.difficulty).effort
        ∧ ch.complexity = (DIFFICULTY_MODIFIERS prefs.difficulty).complexity)
      ∧ (prefs.difficulty = Difficulty.easy → ∀ ch ∈ r.1, ch.estimatedTime = 5)
      ∧ (prefs.difficulty = Difficulty.hard → ∀ ch ∈ r.1, ch.estimatedTime = 30) := by
  intro r hr
  have hr2 : some (AIChallengeGenerator.genForEach rand now prefs hist
      (AIChallengeGenerator.selectCategories rand pos prefs.categories).1 0
      (AIChallengeGenerator.selectCategories rand pos prefs.categories).2)
      = some r := hr
  injection hr2 with hr3
  subst hr3
  have hall := genForEach_modifiers rand now prefs hist
    (AIChallengeGenerator.selectCategories rand pos prefs.categories).1 0
    (AIChallengeGenerator.selectCategories rand pos prefs.categories).2
  refine ⟨hall, ?_, ?_⟩
  · intro hd ch hch
    rw [(hall ch hch).1, hd]
    rfl
  · intro hd ch hch
    rw [(hall ch hch).1, hd]
    rfl

/-- Witness for C8: the first challenge of the concrete easy-difficulty health
batch has estimatedTime 5. -/
theorem C8_easy_time_witness :
    (healthBatch.1.getD 0 dummyChallenge).estimatedTime = 5 := by
  have h := C8_difficulty_modifier_fields randZero 0 0 healthPreferences []
    (by decide) healthBatch rfl
  exact h.2.1 rfl (healthBatch.1.getD 0 dummyChallenge) healthBatch_head_mem
